import Mathlib

/-!
The program `nest_library/hello.cpp`, the consumer of the `foo` library.

The source is one translation unit:

```
    #include <iostream>
    #include "foo.hpp"

    #ifdef FOO_PRIVATE
    #error "FOO_PRIVATE is found in importing compilation"
    #endif

    int main() {
    	std::cout << "hello world: " << foo() << std::endl;
    	std::cout << "FOO_PUBLIC: " << FOO_PUBLIC << std::endl;

    	return 0;
    }
```

Two things happen to it. At build time the preprocessor evaluates the guard of
lines 4-6 against the macros defined after `foo.hpp` has been included and replaces
the tokens of lines 8-12 that are macros, and the compiler resolves `foo` and
`FOO_PUBLIC` in `main`. At run time `main` performs two output statements and
returns `0`.

The build is embedded as a function from the state of the translation unit after
the include to `Except Diagnostic Library`. The program is embedded in state-passing
style over a trace of its events (calls into the library, insertions into
`std::cout`, flushes); the process that runs it performs those events against the
state of file descriptor 1 it was started with, which decides what is delivered
and how the process ends.
-/

namespace NestLibrary

/-! ## Values and how `std::ostream` renders them -/

/-- Modelled from the spec: `foo.hpp` is not among the sources, so the type of `foo()` and
of `FOO_PUBLIC` is not visible. Section 4.1 gives the result of `foo()` as "a fixed integer
or string" and section 3 gives the public macro constant as an "integer/string value". -/
inductive Value where
  | int (i : Int)
  | str (s : String)
  deriving DecidableEq

/-- The characters `operator<<` inserts for a value: the decimal digits of an integer
(preceded by `-` when it is negative), the characters of a string unchanged. -/
def Value.render : Value → String
  | .int i => toString i
  | .str s => s

/-- Modelled from the spec: what `foo.hpp` gives `main` at run time. `foo` takes no input,
is deterministic, has no side effects and always succeeds (section 4.1), so it is a total
function of `Unit`; `FOO_PUBLIC` is the value the public macro expands to. -/
structure Library where
  foo : Unit → Value
  FOO_PUBLIC : Value

/-! ## Build time -/

/-- The replacement text of a macro: nothing at all (`#define X`), or a literal. -/
inductive MacroBody where
  | empty
  | literal (v : Value)
  deriving DecidableEq

/-- The macros defined at some point of a translation unit, most recent definition first.
A macro is defined as soon as it has an entry, whatever its body. -/
abbrev MacroEnv := List (String × MacroBody)

/-- The test of `#ifdef name`. -/
def MacroEnv.isDefined (env : MacroEnv) (name : String) : Bool :=
  (env.lookup name).isSome

/-- The translation unit at the point after `#include "foo.hpp"` (line 2): the macros that
are defined there, whether by build flags or by the header, and the definition of `foo()`
the header made visible, if it made one. -/
structure TranslationUnit where
  macros : MacroEnv
  fooDecl : Option (Unit → Value)

/-- What the compiler reports when it rejects the unit. -/
inductive Diagnostic where
  /-- A `#error` directive was reached; `text` is the rest of its line. -/
  | errorDirective (text : String)
  /-- An identifier `main` uses that the unit does not supply as a value. -/
  | unresolved (ident : String)
  /-- A token of lines 8-12 that a macro replaced by text that does not parse there. -/
  | malformed (token : String)
  deriving DecidableEq

/-- The rest of line 5 after `#error`. -/
def guardText : String := "\"FOO_PRIVATE is found in importing compilation\""

/-- Lines 4-6: `#ifdef FOO_PRIVATE` / `#error ...` / `#endif`. -/
def visibilityGuard (macros : MacroEnv) : Except Diagnostic Unit :=
  if macros.isDefined "FOO_PRIVATE" then
    .error (.errorDirective guardText)
  else
    .ok ()

/-- Line 9 names `foo`: it has to be declared. -/
def resolveFoo (tu : TranslationUnit) : Except Diagnostic (Unit → Value) :=
  match tu.fooDecl with
  | some f => .ok f
  | none => .error (.unresolved "foo")

/-- Line 10 names `FOO_PUBLIC` as the right operand of `<<`: it has to expand to a value. -/
def resolvePublic (tu : TranslationUnit) : Except Diagnostic Value :=
  match tu.macros.lookup "FOO_PUBLIC" with
  | some (.literal v) => .ok v
  | _ => .error (.unresolved "FOO_PUBLIC")

/-- The keywords and identifiers of lines 8-12 other than `FOO_PUBLIC`, in source order:
`int main` (line 8), `std cout foo std endl` (line 9), `std cout std endl` (line 10),
`return` (line 12). The preprocessor replaces each of them that is the name of a macro. -/
def mainTokens : List String :=
  ["int", "main", "std", "cout", "foo", "std", "endl", "std", "cout", "std", "endl", "return"]

/-- Whether a token of `mainTokens` still parses in its place after macro replacement. A
token that is not a macro is left alone. Replaced by a literal, none of them parses
(`int 1() {`, `std::1`, `1 0;`). Replaced by nothing, only `return` leaves valid text:
line 12 becomes the expression statement `0;`, and `main` returns 0 at its closing brace. -/
def tokenIntact (macros : MacroEnv) (tok : String) : Bool :=
  match macros.lookup tok with
  | none => true
  | some .empty => tok == "return"
  | some (.literal _) => false

/-- Lines 8-12 after macro replacement: the first token that no longer parses is reported. -/
def checkTokens (macros : MacroEnv) : List String → Except Diagnostic Unit
  | [] => .ok ()
  | tok :: rest =>
    if tokenIntact macros tok then checkTokens macros rest else .error (.malformed tok)

/-- The build of `hello.cpp` from the point after the include on: the guard of lines 4-6
first, then the tokens of lines 8-12 under macro replacement, then the two names `main`
takes from the library. The first diagnostic ends the build. The executable is represented
by the library bindings it was built against. -/
def compileHello (tu : TranslationUnit) : Except Diagnostic Library := do
  visibilityGuard tu.macros
  checkTokens tu.macros mainTokens
  let f ← resolveFoo tu
  let p ← resolvePublic tu
  pure { foo := f, FOO_PUBLIC := p }

/-- Modelled from the spec: the public header `foo.hpp`, which is not among the sources.
Section 6: it "must define `foo()` and the public constant, and must NOT define the
internal-only constant under normal (non-implementation) inclusion". Including it on top of
the macros given by the build flags adds `FOO_PUBLIC` and the definition of `foo()`, and
nothing else. -/
def includeFooHpp (impl : Unit → Value) (pub : Value) (flags : MacroEnv) : TranslationUnit :=
  { macros := ("FOO_PUBLIC", .literal pub) :: flags, fooDecl := some impl }

/-! ## Run time -/

/-- The observable events of a run. -/
inductive Event where
  /-- A call of the library function `foo()`. -/
  | callFoo
  /-- Characters inserted into `std::cout`. -/
  | write (s : String)
  /-- A flush of `std::cout`. -/
  | flush
  deriving DecidableEq

/-- The events of a process so far, oldest first. -/
abbrev Trace := List Event

/-- `std::cout << s` for already rendered characters. -/
def coutWrite (s : String) (t : Trace) : Trace :=
  t ++ [.write s]

/-- `std::cout << std::endl`: a newline, then a flush. -/
def coutEndl (t : Trace) : Trace :=
  t ++ [.write "\n", .flush]

/-- The call `foo()`. -/
def callFoo (lib : Library) (t : Trace) : Value × Trace :=
  (lib.foo (), t ++ [.callFoo])

/-- The order in which the operands of `a << b << c` are evaluated depends on the language
standard the unit is compiled for: left to right from C++17 on, unspecified before, where
the call of `foo()` may precede the insertion of the string to its left. -/
inductive EvalOrder where
  | leftToRight
  | callFirst
  deriving DecidableEq

/-- Line 9: `std::cout << "hello world: " << foo() << std::endl;`. -/
def helloStatement (lib : Library) (ord : EvalOrder) (t : Trace) : Trace :=
  match ord with
  | .leftToRight =>
    let t1 := coutWrite "hello world: " t
    let (v, t2) := callFoo lib t1
    coutEndl (coutWrite v.render t2)
  | .callFirst =>
    let (v, t1) := callFoo lib t
    let t2 := coutWrite "hello world: " t1
    coutEndl (coutWrite v.render t2)

/-- Line 10: `std::cout << "FOO_PUBLIC: " << FOO_PUBLIC << std::endl;`. The macro has been
replaced by its value at build time. -/
def publicStatement (lib : Library) (t : Trace) : Trace :=
  coutEndl (coutWrite lib.FOO_PUBLIC.render (coutWrite "FOO_PUBLIC: " t))

/-- Lines 8-13: `int main()`. It takes no arguments; the trace is threaded through the two
statements and the status of `return 0` is returned with it. -/
def main (lib : Library) (ord : EvalOrder) (t : Trace) : Trace × Int :=
  let t1 := helloStatement lib ord t
  let t2 := publicStatement lib t1
  (t2, 0)

/-- The events line 9 adds, in either evaluation order. -/
def helloEvents (lib : Library) : EvalOrder → Trace
  | .leftToRight => [.write "hello world: ", .callFoo, .write (lib.foo ()).render, .write "\n", .flush]
  | .callFirst => [.callFoo, .write "hello world: ", .write (lib.foo ()).render, .write "\n", .flush]

/-- The events line 10 adds. -/
def publicEvents (lib : Library) : Trace :=
  [.write "FOO_PUBLIC: ", .write lib.FOO_PUBLIC.render, .write "\n", .flush]

/-- The characters a trace put on standard output. -/
def stdoutOf : Trace → String
  | [] => ""
  | .write s :: t => s ++ stdoutOf t
  | _ :: t => stdoutOf t

/-- The number of calls into the library in a trace. -/
def libraryCalls (t : Trace) : Nat :=
  t.count .callFoo

/-- What the operating system hands a process when it starts it; `history` stands for
whatever earlier runs of the program did. -/
structure ProcessContext where
  argv : List String
  environ : List (String × String)
  history : Trace

/-- What a finished process leaves behind. -/
structure Outcome where
  stdout : String
  status : Int
  deriving DecidableEq

/-- One run of the executable as the program performs it: nothing is written at the start,
`main()` is called without arguments, and what it inserts into `std::cout` and returns make
the outcome. What becomes of the insertions at the file descriptor is `execute`. -/
def run (lib : Library) (ord : EvalOrder) (_ctx : ProcessContext) : Outcome :=
  let r := main lib ord []
  { stdout := stdoutOf r.1, status := r.2 }

/-! ## The process and its standard output -/

/-- The state of file descriptor 1 the process is started with. -/
inductive Fd1 where
  /-- A terminal, a file, a pipe with a reader: every write succeeds. -/
  | accepting
  /-- A pipe whose reader is gone: a write raises `SIGPIPE`. `hello.cpp` installs no handler
  and does not ignore the signal, so the process is terminated by it. -/
  | brokenPipe
  /-- Writes fail with an error (a closed descriptor, a full device): `std::cout` turns bad
  and ignores what is inserted afterwards; nothing in `hello.cpp` tests the stream. -/
  | failing
  deriving DecidableEq

/-- The number of `SIGPIPE`. -/
def sigpipe : Nat := 13

/-- A running process: what it was started with, the state of `std::cout` (`buffer` holds
what was inserted and not yet written, `bad` is its error state), what has reached the
descriptor, and the signal that killed it, if one did. -/
structure Process where
  context : ProcessContext
  fd1 : Fd1
  buffer : String
  bad : Bool
  delivered : String
  killedBy : Option Nat

/-- What one event of the program does to the process. A killed process does nothing more;
a call of `foo()` leaves the process state alone (`foo()` has no side effect); an insertion
goes to the buffer unless the stream is bad; a flush of a non-empty buffer is a write to
the descriptor. -/
def perform (e : Event) (p : Process) : Process :=
  if p.killedBy.isSome then p else
  match e with
  | .callFoo => p
  | .write s => if p.bad then p else { p with buffer := p.buffer ++ s }
  | .flush =>
    if p.bad || p.buffer == "" then p else
    match p.fd1 with
    | .accepting => { p with delivered := p.delivered ++ p.buffer, buffer := "" }
    | .brokenPipe => { p with killedBy := some sigpipe }
    | .failing => { p with bad := true, buffer := "" }

/-- The events of a trace performed in order. -/
def performAll : Trace → Process → Process
  | [], p => p
  | e :: t, p => performAll t (perform e p)

/-- Cut text at each newline; `acc` is the line being read. Returns the newline-terminated
lines (without their newline) and what follows the last newline. -/
def splitLinesAux : List Char → List Char → List (List Char) × List Char
  | acc, [] => ([], acc)
  | acc, c :: cs =>
    if c = '\n' then
      let r := splitLinesAux [] cs
      (acc :: r.1, r.2)
    else
      splitLinesAux (acc ++ [c]) cs

/-- The newline-terminated lines of a text and its unterminated rest. -/
def splitLines (s : String) : List (List Char) × List Char :=
  splitLinesAux [] s.data

/-- The output format of section 6: exactly two newline-terminated lines and nothing after
them, the first beginning with `hello world: ` and the second with `FOO_PUBLIC: `. -/
def isTwoLineOutput (out : String) : Bool :=
  match splitLines out with
  | ([l1, l2], []) =>
    "hello world: ".data.isPrefixOf l1 && "FOO_PUBLIC: ".data.isPrefixOf l2
  | _ => false

/-- A text without a newline character. -/
def noNewline (s : String) : Prop :=
  '\n' ∉ s.data

instance (s : String) : Decidable (noNewline s) :=
  inferInstanceAs (Decidable ('\n' ∉ s.data))

/-! ## Concrete inputs -/

/-- A library whose `foo()` returns `42` and whose public constant is `7`. -/
def sampleLibrary : Library :=
  { foo := fun _ => .int 42, FOO_PUBLIC := .int 7 }

/-- A library whose `foo()` returns a string of two lines. -/
def newlineLibrary : Library :=
  { foo := fun _ => .str "a\nb", FOO_PUBLIC := .int 7 }

/-- A process started without arguments or environment, for the first time. -/
def bareContext : ProcessContext :=
  { argv := [], environ := [], history := [] }

/-- A unit in which the internal-only macro leaked, with an empty body. -/
def leakedUnit : TranslationUnit :=
  { macros := [("FOO_PRIVATE", .empty), ("FOO_PUBLIC", .literal (.int 7))],
    fooDecl := some (fun _ => .int 42) }

/-- A unit built against the public interface only. -/
def cleanUnit : TranslationUnit :=
  includeFooHpp (fun _ => .int 42) (.int 7) [("NDEBUG", .empty)]

/-! ## Lemmas on traces and text -/

theorem stdoutOf_append (a b : Trace) : stdoutOf (a ++ b) = stdoutOf a ++ stdoutOf b := by
  induction a with
  | nil => simp [stdoutOf]
  | cons e a ih =>
    cases e <;> simp [stdoutOf, ih, String.append_assoc]

theorem libraryCalls_append (a b : Trace) :
    libraryCalls (a ++ b) = libraryCalls a + libraryCalls b := by
  simp [libraryCalls]

theorem helloStatement_eq (lib : Library) (ord : EvalOrder) (t : Trace) :
    helloStatement lib ord t = t ++ helloEvents lib ord := by
  cases ord <;> simp [helloStatement, helloEvents, coutWrite, coutEndl, callFoo]

theorem publicStatement_eq (lib : Library) (t : Trace) :
    publicStatement lib t = t ++ publicEvents lib := by
  simp [publicStatement, publicEvents, coutWrite, coutEndl]

theorem main_eq (lib : Library) (ord : EvalOrder) (t : Trace) :
    main lib ord t = (t ++ helloEvents lib ord ++ publicEvents lib, 0) := by
  simp [main, helloStatement_eq, publicStatement_eq]

theorem stdoutOf_helloEvents (lib : Library) (ord : EvalOrder) :
    stdoutOf (helloEvents lib ord) = "hello world: " ++ (lib.foo ()).render ++ "\n" := by
  cases ord <;> simp [helloEvents, stdoutOf, String.append_assoc]

theorem stdoutOf_publicEvents (lib : Library) :
    stdoutOf (publicEvents lib) = "FOO_PUBLIC: " ++ lib.FOO_PUBLIC.render ++ "\n" := by
  simp [publicEvents, stdoutOf, String.append_assoc]

theorem run_stdout (lib : Library) (ord : EvalOrder) (ctx : ProcessContext) :
    (run lib ord ctx).stdout
      = "hello world: " ++ (lib.foo ()).render ++ "\n"
        ++ ("FOO_PUBLIC: " ++ lib.FOO_PUBLIC.render ++ "\n") := by
  simp [run, main_eq, stdoutOf_append, stdoutOf_helloEvents, stdoutOf_publicEvents]

theorem splitLinesAux_line (a rest : List Char) (h : '\n' ∉ a) (acc : List Char) :
    splitLinesAux acc (a ++ '\n' :: rest)
      = ((acc ++ a) :: (splitLinesAux [] rest).1, (splitLinesAux [] rest).2) := by
  induction a generalizing acc with
  | nil => simp [splitLinesAux]
  | cons c a ih =>
    have hc : c ≠ '\n' := fun e => h (by simp [e])
    have ha : '\n' ∉ a := fun m => h (List.mem_cons_of_mem _ m)
    simp [splitLinesAux, hc, ih ha]

theorem digitChar_ne_newline (n : Nat) : Nat.digitChar n ≠ '\n' := by
  by_cases h : n < 16
  · interval_cases n <;> decide
  · have hstar : Nat.digitChar n = '*' := by
      unfold Nat.digitChar
      repeat rw [if_neg (by omega)]
    rw [hstar]
    decide

theorem toDigitsCore_noNewline (f n : Nat) (ds : List Char) (h : '\n' ∉ ds) :
    '\n' ∉ Nat.toDigitsCore 10 f n ds := by
  induction f generalizing n ds with
  | zero => simpa [Nat.toDigitsCore] using h
  | succ f ih =>
    have hd : '\n' ∉ Nat.digitChar (n % 10) :: ds := by
      simp only [List.mem_cons, not_or]
      exact ⟨fun e => digitChar_ne_newline _ e.symm, h⟩
    unfold Nat.toDigitsCore
    by_cases hz : n / 10 = 0
    · simpa [hz] using hd
    · simpa [hz] using ih (n / 10) _ hd

theorem natRepr_noNewline (n : Nat) : '\n' ∉ (Nat.repr n).data := by
  simpa [Nat.repr, Nat.toDigits, List.asString] using toDigitsCore_noNewline (n + 1) n [] (by simp)

/-- An integer is rendered without a newline. -/
theorem render_int_noNewline (i : Int) : noNewline (Value.int i).render := by
  unfold noNewline Value.render
  cases i with
  | ofNat m => exact natRepr_noNewline m
  | negSucc m =>
    show '\n' ∉ ("-" ++ Nat.repr (m + 1)).data
    rw [String.data_append]
    simp only [List.mem_append, not_or]
    exact ⟨by decide, natRepr_noNewline _⟩

theorem run_stdout_data (lib : Library) (ord : EvalOrder) (ctx : ProcessContext) :
    (run lib ord ctx).stdout.data
      = ("hello world: " ++ (lib.foo ()).render).data
        ++ '\n' :: (("FOO_PUBLIC: " ++ lib.FOO_PUBLIC.render).data ++ '\n' :: []) := by
  rw [run_stdout]
  simp [String.data_append]

theorem noNewline_append (a b : String) (ha : noNewline a) (hb : noNewline b) :
    noNewline (a ++ b) := by
  unfold noNewline at *
  simp [String.data_append, ha, hb]

theorem splitLines_run (lib : Library) (ord : EvalOrder) (ctx : ProcessContext)
    (hv : noNewline (lib.foo ()).render) (hp : noNewline lib.FOO_PUBLIC.render) :
    splitLines (run lib ord ctx).stdout
      = ([("hello world: " ++ (lib.foo ()).render).data,
          ("FOO_PUBLIC: " ++ lib.FOO_PUBLIC.render).data], []) := by
  have h1 : '\n' ∉ ("hello world: " ++ (lib.foo ()).render).data :=
    noNewline_append _ _ (by decide) hv
  have h2 : '\n' ∉ ("FOO_PUBLIC: " ++ lib.FOO_PUBLIC.render).data :=
    noNewline_append _ _ (by decide) hp
  unfold splitLines
  rw [run_stdout_data, splitLinesAux_line _ _ h1, splitLinesAux_line _ _ h2]
  simp [splitLinesAux]

/-! ## Lemmas on the process -/

theorem performAll_append (a b : Trace) (p : Process) :
    performAll (a ++ b) p = performAll b (performAll a p) := by
  induction a generalizing p with
  | nil => rfl
  | cons e a ih => simp [performAll, ih]

/-- C1: for every value `v` of `foo()` and every value `p` of `FOO_PUBLIC`, a run of `main`
puts on standard output exactly `hello world: `, the rendering of `v`, a newline,
`FOO_PUBLIC: `, the rendering of `p` and a newline, in that order and nothing else. -/
theorem run_stdout_exact (lib : Library) (ord : EvalOrder) (ctx : ProcessContext) :
    (run lib ord ctx).stdout
      = "hello world: " ++ (lib.foo ()).render ++ "\n"
        ++ "FOO_PUBLIC: " ++ lib.FOO_PUBLIC.render ++ "\n" := by
  rw [run_stdout]
  simp only [String.append_assoc]

/-- C5, as stated, fails: when `foo()` returns the string `a\nb` the output has three
newline-terminated lines, not two. -/
theorem two_lines_fails_on_newline_value :
    isTwoLineOutput (run newlineLibrary .leftToRight bareContext).stdout = false
      ∧ (splitLines (run newlineLibrary .leftToRight bareContext).stdout).1.length = 3 := by
  decide

/-- C5, amended: when neither the rendering of `foo()`'s value nor that of `FOO_PUBLIC`
contains a newline, standard output is exactly two newline-terminated lines with nothing
after them, the first `hello world: ` followed by the first rendering and the second
`FOO_PUBLIC: ` followed by the second rendering. -/
theorem two_lines_of_noNewline (lib : Library) (ord : EvalOrder) (ctx : ProcessContext)
    (hv : noNewline (lib.foo ()).render) (hp : noNewline lib.FOO_PUBLIC.render) :
    splitLines (run lib ord ctx).stdout
        = ([("hello world: " ++ (lib.foo ()).render).data,
            ("FOO_PUBLIC: " ++ lib.FOO_PUBLIC.render).data], [])
      ∧ isTwoLineOutput (run lib ord ctx).stdout = true := by
  have hs := splitLines_run lib ord ctx hv hp
  refine ⟨hs, ?_⟩
  unfold isTwoLineOutput
  rw [hs]
  simp [String.data_append]

/-- The two-line format at the library that returns `42` and has the constant `7`. -/
theorem two_lines_of_noNewline_witness :
    noNewline (sampleLibrary.foo ()).render ∧ noNewline sampleLibrary.FOO_PUBLIC.render
      ∧ (splitLines (run sampleLibrary .leftToRight bareContext).stdout
          = ([("hello world: " ++ (sampleLibrary.foo ()).render).data,
              ("FOO_PUBLIC: " ++ sampleLibrary.FOO_PUBLIC.render).data], [])
        ∧ isTwoLineOutput (run sampleLibrary .leftToRight bareContext).stdout = true) :=
  ⟨by decide, by decide,
    two_lines_of_noNewline sampleLibrary .leftToRight bareContext (by decide) (by decide)⟩

/-- C8: in every run `main` calls `foo()` exactly once, and the trace of the run splits into
a first part that holds that call and writes the whole `hello world: ` line, followed by a
second part that writes the whole `FOO_PUBLIC: ` line and holds no call into the library. -/
theorem main_calls_foo_once (lib : Library) (ord : EvalOrder) :
    libraryCalls (main lib ord []).1 = 1
      ∧ ∃ first second : Trace,
          (main lib ord []).1 = first ++ second
            ∧ stdoutOf first = "hello world: " ++ (lib.foo ()).render ++ "\n"
            ∧ libraryCalls first = 1
            ∧ stdoutOf second = "FOO_PUBLIC: " ++ lib.FOO_PUBLIC.render ++ "\n"
            ∧ libraryCalls second = 0 := by
  have hfirst : libraryCalls (helloEvents lib ord) = 1 := by
    cases ord <;> simp [helloEvents, libraryCalls]
  have hsecond : libraryCalls (publicEvents lib) = 0 := by
    simp [publicEvents, libraryCalls]
  refine ⟨?_, helloEvents lib ord, publicEvents lib, ?_, stdoutOf_helloEvents lib ord, hfirst,
    stdoutOf_publicEvents lib, hsecond⟩
  · rw [main_eq, List.nil_append, libraryCalls_append, hfirst, hsecond]
  · rw [main_eq, List.nil_append]

/-! ## The build -/

/-- C2: if `FOO_PRIVATE` is defined at the point after the include, whatever its body, the
build of `hello.cpp` aborts with the `#error` diagnostic, whose text contains the name
`FOO_PRIVATE`; so no build in which it is defined succeeds. -/
theorem compile_aborts_of_private (tu : TranslationUnit)
    (h : tu.macros.isDefined "FOO_PRIVATE" = true) :
    compileHello tu = .error (.errorDirective guardText)
      ∧ "FOO_PRIVATE".data <:+: guardText.data
      ∧ ∀ exe : Library, compileHello tu ≠ .ok exe := by
  have hc : compileHello tu = .error (.errorDirective guardText) := by
    simp [compileHello, visibilityGuard, h, bind, Except.bind]
  refine ⟨hc, ⟨['"'], " is found in importing compilation\"".data, by decide⟩, ?_⟩
  intro exe he
  rw [hc] at he
  cases he

/-- The abort at a unit in which the internal-only macro is defined with an empty body. -/
theorem compile_aborts_of_private_witness :
    leakedUnit.macros.isDefined "FOO_PRIVATE" = true
      ∧ (compileHello leakedUnit = .error (.errorDirective guardText)
        ∧ "FOO_PRIVATE".data <:+: guardText.data
        ∧ ∀ exe : Library, compileHello leakedUnit ≠ .ok exe) :=
  ⟨by decide, compile_aborts_of_private leakedUnit (by decide)⟩

/-- C7: a unit that includes only the public header, built with flags that do not define
`FOO_PRIVATE`, has `FOO_PRIVATE` undefined after the include while `foo()` and `FOO_PUBLIC`
are defined; the guard of `hello.cpp` passes on it. -/
theorem public_header_keeps_private_hidden (impl : Unit → Value) (pub : Value)
    (flags : MacroEnv) (h : flags.isDefined "FOO_PRIVATE" = false) :
    (includeFooHpp impl pub flags).macros.isDefined "FOO_PRIVATE" = false
      ∧ (includeFooHpp impl pub flags).fooDecl = some impl
      ∧ (includeFooHpp impl pub flags).macros.lookup "FOO_PUBLIC" = some (.literal pub)
      ∧ (includeFooHpp impl pub flags).macros.isDefined "FOO_PUBLIC" = true
      ∧ visibilityGuard (includeFooHpp impl pub flags).macros = .ok () := by
  have hne : ("FOO_PRIVATE" == "FOO_PUBLIC") = false := by decide
  have hk : (includeFooHpp impl pub flags).macros.isDefined "FOO_PRIVATE" = false := by
    unfold MacroEnv.isDefined at h ⊢
    simpa [includeFooHpp, List.lookup, hne] using h
  refine ⟨hk, rfl, ?_, ?_, ?_⟩
  · simp [includeFooHpp, List.lookup]
  · simp [includeFooHpp, MacroEnv.isDefined, List.lookup]
  · simp [visibilityGuard, hk]

/-- The header included under the single flag `NDEBUG`. -/
theorem public_header_keeps_private_hidden_witness :
    MacroEnv.isDefined [("NDEBUG", MacroBody.empty)] "FOO_PRIVATE" = false
      ∧ (cleanUnit.macros.isDefined "FOO_PRIVATE" = false
        ∧ cleanUnit.fooDecl = some (fun _ => Value.int 42)
        ∧ cleanUnit.macros.lookup "FOO_PUBLIC" = some (.literal (.int 7))
        ∧ cleanUnit.macros.isDefined "FOO_PUBLIC" = true
        ∧ visibilityGuard cleanUnit.macros = .ok ()) :=
  ⟨by decide,
    public_header_keeps_private_hidden (fun _ => .int 42) (.int 7) [("NDEBUG", .empty)]
      (by decide)⟩

end NestLibrary
